import Mathlib

/-!
Shallow embedding of the scrappy-ddns service core (scrappyddns.py and the
legacy variant scrappy-ddns.py): token-list loading, client-IP resolution,
the debounced change-detection controller `hello`, and the commit path of
`update_ip`, together with theorems settling the specification claims.

Modelling conventions:
* The token list file is an `Option (List String)` — `none` when the file is
  absent, otherwise its lines (without trailing newlines).
* The per-token IP-record store (`<cache_dir>/<token>.ip` files) is a function
  from token to `Option IpRec` — content string plus a modification time.
* `time.time()` and file mtimes are modelled as integers; the debounce
  comparison `st_mtime < time.time() - 10` keeps its exact shape.
* The outbound push (`push_notify`) is externally determined: the environment
  carries a flag saying whether the provider call succeeds; on failure the
  Python code raises `ScrappyException`, modelled as a `raised` outcome.
* `flask.abort(404)` raises `werkzeug.exceptions.NotFound`, which is a subclass
  of `Exception`; the blanket `except Exception` in `hello` therefore catches
  it and calls `abort(500)`.  The model keeps the two stages separate:
  `hello_try` is the body of the `try` block and `hello` applies the
  `except Exception` handler.
-/

namespace ScrappyDDNS

/-- Python `\s` characters (ASCII): space, tab, newline, carriage return,
vertical tab, form feed. -/
def isPySpace (c : Char) : Bool :=
  c == ' ' || c == '\t' || c == '\n' || c == '\r' || c == '\x0b' || c == '\x0c'

/-- Characters of the separator class `[\s,]` used by `find_client_ip` to
split the X-Forwarded-For header. -/
def isSepChar (c : Char) : Bool :=
  c == ',' || isPySpace c

/-- Split a character list at every character satisfying `p`, keeping empty
pieces (the semantics of splitting on single separator characters).  After
discarding empty pieces this coincides with splitting on maximal nonempty
separator runs, which is what `re.split` with a separator-class pattern does
on the Python version this code targets. -/
def pySplitP (p : Char → Bool) : List Char → List (List Char)
  | [] => [[]]
  | c :: rest =>
    match pySplitP p rest with
    | [] => [[]]
    | cur :: rs => if p c then [] :: cur :: rs else (c :: cur) :: rs

/-- Python `str.split(sep)` for a single-character separator. -/
def pySplit (sep : Char) (cs : List Char) : List (List Char) :=
  pySplitP (fun c => c == sep) cs

/-- Python `str.strip()`: remove leading and trailing whitespace. -/
def pyStrip (s : String) : String :=
  String.mk (((s.data.dropWhile isPySpace).reverse.dropWhile isPySpace).reverse)

/-- `re.match(r'[^#].*:.*', line)` on a newline-free line: the first character
exists and is not `#`, and a colon occurs somewhere after it. -/
def lineMatches (line : String) : Bool :=
  match line.data with
  | [] => false
  | c :: rest => c != '#' && rest.contains ':'

/-- The dict-comprehension body of `load_tokens`: `elem[0]` and `elem[1]` of
`line.split(':')` — the token is the segment before the first colon and the
client name the segment between the first and second colon (or up to the end
of the line when there is no second colon). -/
def parseLine (line : String) : String × String :=
  let parts := (pySplit ':' line.data).map String.mk
  (parts.getD 0 "", parts.getD 1 "")

/-- `load_tokens` (scrappyddns.py lines 106-121, identical in the legacy
variant): filter lines through the comment/malformed-line regex, strip them,
split each on colons, and fail with `ScrappyException` when the file is
missing or no valid line remains.  The resulting dict is modelled as the
association list of entries in file order (later duplicates override earlier
ones via `dictLookup`). -/
def load_tokens (tokenFile : Option (List String)) :
    Except String (List (String × String)) :=
  match tokenFile with
  | none => .error "Token list file is missing or contains no tokens."
  | some lines =>
    let token_lines := (lines.filter lineMatches).map pyStrip
    let token_names := token_lines.map parseLine
    if token_names.isEmpty then
      .error "Token list file is missing or contains no tokens."
    else
      .ok token_names

/-- Lookup in the dict built by the comprehension in `load_tokens`: a later
entry with the same key overrides an earlier one. -/
def dictLookup (m : List (String × String)) (k : String) : Option String :=
  m.foldl (fun acc p => if p.1 = k then some p.2 else acc) none

/-- The hop list built by `find_client_ip` line 138: split the header on the
separator class, discard empty pieces, and reverse, so the hop closest to the
server comes first. -/
def forwarded_hops (xff : String) : List String :=
  (((pySplitP isSepChar xff.data).map String.mk).filter (fun h => h != "")).reverse

/-- `find_client_ip` (scrappyddns.py lines 124-149).  Returns the resolved
address together with a flag recording whether the misconfiguration warning
was emitted.  `req_hops[proxy_count-1:proxy_count][0]` is the element at
index `proxy_count - 1`, defined whenever `len(req_hops) >= proxy_count`. -/
def find_client_ip (remote_addr : String) (xff : String) (proxy_count : Nat) :
    String × Bool :=
  if 0 < proxy_count then
    let req_hops := forwarded_hops xff
    if req_hops ≠ [] then
      if proxy_count ≤ req_hops.length then
        (req_hops.getD (proxy_count - 1) "", false)
      else
        (remote_addr, true)
    else
      (remote_addr, true)
  else
    (remote_addr, false)

/-- One durable per-token record: the content of the `<token>.ip` file and its
modification time. -/
structure IpRec where
  content : String
  mtime : Int
deriving DecidableEq

/-- The IP-address cache directory: one optional record per token. -/
def Store : Type := String → Option IpRec

/-- The effect of a successful `update_ip` on the store: the token's record
now holds the new IP with the current time as its modification time. -/
def commit (store : Store) (token ip : String) (now : Int) : Store :=
  fun t => if t = token then some ⟨ip, now⟩ else store t

/-- Everything a single ping depends on besides the store: the token file
content, the optional `ip_address` query parameter, request metadata, the
configured proxy count, the current time, and whether the outbound push
notification call succeeds. -/
structure PingEnv where
  tokenFile : Option (List String)
  ipParam : Option String
  remoteAddr : String
  xff : String
  proxyCount : Nat
  now : Int
  pushOk : Bool

/-- `request.args.get('ip_address', find_client_ip())` (line 161): the
explicit parameter when present, the resolver's answer otherwise. -/
def resolved_ip (env : PingEnv) : String :=
  env.ipParam.getD (find_client_ip env.remoteAddr env.xff env.proxyCount).1

/-- A dispatch attempt as handed to `push_notify`. -/
structure PushRequest where
  clientName : String
  ip : String
deriving DecidableEq

/-- Outcome of the `try` block of `hello`: a normal `return`, the `NotFound`
exception raised by `abort(404)`, or a `ScrappyException`/other exception. -/
inductive InnerResult where
  | returned (body : String)
  | aborted404
  | raised (msg : String)
deriving DecidableEq

/-- Result of the `try` block together with the store it leaves behind and
the list of dispatch attempts it made. -/
structure PingStep where
  inner : InnerResult
  store : Store
  dispatches : List PushRequest

/-- The HTTP response as the client sees it. -/
inductive HttpResponse where
  | ok200 (body : String)
  | err404
  | err500
deriving DecidableEq

/-- What one ping produces: the response, the store afterwards, and the
dispatch attempts made. -/
structure PingResult where
  resp : HttpResponse
  store : Store
  dispatches : List PushRequest

/-- The body of the `try` block of `hello` (scrappyddns.py lines 155-191).
`update_ip` is inlined at its two call sites: it first calls `push_notify`
(one dispatch attempt); on provider failure that raises, leaving the store
untouched; on success the new IP is committed. -/
def hello_try (env : PingEnv) (store : Store) (token : String) : PingStep :=
  match load_tokens env.tokenFile with
  | .error msg => ⟨.raised msg, store, []⟩
  | .ok token_names =>
    match dictLookup token_names token with
    | none => ⟨.aborted404, store, []⟩
    | some client_name =>
      let client_ip := resolved_ip env
      match store token with
      | some r =>
        if r.mtime < env.now - 10 then
          if r.content ≠ client_ip then
            if env.pushOk then
              ⟨.returned "OK", commit store token client_ip env.now,
                [⟨client_name, client_ip⟩]⟩
            else
              ⟨.raised "Push failed", store, [⟨client_name, client_ip⟩]⟩
          else
            ⟨.returned "OK", store, []⟩
        else
          ⟨.returned "OK", store, []⟩
      | none =>
        if env.pushOk then
          ⟨.returned "OK", commit store token client_ip env.now,
            [⟨client_name, client_ip⟩]⟩
        else
          ⟨.raised "Push failed", store, [⟨client_name, client_ip⟩]⟩

/-- `hello` with its `except Exception` handler (lines 192-196): a normal
return becomes `200`, and every exception — including the `NotFound` raised
by `abort(404)`, which is a subclass of `Exception` — is caught, logged, and
turned into `abort(500)`. -/
def hello (env : PingEnv) (store : Store) (token : String) : PingResult :=
  match hello_try env store token with
  | ⟨.returned body, s, d⟩ => ⟨.ok200 body, s, d⟩
  | ⟨.aborted404, s, d⟩ => ⟨.err500, s, d⟩
  | ⟨.raised _, s, d⟩ => ⟨.err500, s, d⟩

/-- `os.path.dirname` for POSIX paths: everything before the last slash,
with trailing slashes stripped unless the head is all slashes. -/
def dirname (p : String) : String :=
  let cs := p.data
  let tailLen := (cs.reverse.takeWhile (fun c => c != '/')).length
  let head := cs.take (cs.length - tailLen)
  if !head.isEmpty && !(head.all (fun c => c == '/')) then
    String.mk ((head.reverse.dropWhile (fun c => c == '/')).reverse)
  else
    String.mk head

/-- The externally visible operations `update_ip` performs, in order: the
push-notification call, a write of a fresh named temporary file, an atomic
rename, or an in-place open-and-write of a file. -/
inductive Op where
  | push (clientName ip : String)
  | tempWrite (dir tmpName content : String)
  | rename (src dst : String)
  | openW (path content : String)
deriving DecidableEq

/-- Operation trace of `update_ip` in scrappyddns.py (lines 31-39): push
first, then write the new IP to a named temporary file in the record's
directory (`tmpName` stands for the fresh name the OS picks), then rename it
over the record path. -/
def update_ip_ops (ip_filename tmpName client_name client_ip : String) :
    List Op :=
  [Op.push client_name client_ip,
   Op.tempWrite (dirname ip_filename) tmpName client_ip,
   Op.rename tmpName ip_filename]

/-- Operation trace of `update_ip` in the legacy scrappy-ddns.py (lines
29-34): push first, then open the record file itself for writing and write
the new IP in place. -/
def update_ip_ops_legacy (ip_filename client_name client_ip : String) :
    List Op :=
  [Op.push client_name client_ip,
   Op.openW ip_filename client_ip]

/-! ## Helper lemmas -/

lemma string_mk_data (s : String) : String.mk s.data = s := rfl

lemma pySplitP_cons (p : Char → Bool) (c : Char) (rest : List Char) :
    pySplitP p (c :: rest)
      = match pySplitP p rest with
        | [] => [[]]
        | cur :: rs => if p c then [] :: cur :: rs else (c :: cur) :: rs := rfl

lemma pySplitP_ne_nil (p : Char → Bool) (cs : List Char) : pySplitP p cs ≠ [] := by
  cases cs with
  | nil => simp [pySplitP]
  | cons c rest =>
    rw [pySplitP_cons]
    cases h : pySplitP p rest with
    | nil => simp
    | cons cur rs =>
      show (if p c = true then [] :: cur :: rs else (c :: cur) :: rs) ≠ []
      split <;> simp

lemma pySplitP_append (p : Char → Bool) (pre : List Char) (c : Char)
    (rest : List Char) (hpre : ∀ x ∈ pre, p x = false) (hc : p c = true) :
    pySplitP p (pre ++ c :: rest) = pre :: pySplitP p rest := by
  induction pre with
  | nil =>
    simp only [List.nil_append]
    rw [pySplitP_cons]
    cases h : pySplitP p rest with
    | nil => exact absurd h (pySplitP_ne_nil p rest)
    | cons cur rs => simp [hc]
  | cons a pre2 ih =>
    have ha : p a = false := hpre a (List.mem_cons_self a pre2)
    have hpre2 : ∀ x ∈ pre2, p x = false :=
      fun x hx => hpre x (List.mem_cons_of_mem a hx)
    simp only [List.cons_append]
    rw [pySplitP_cons, ih hpre2]
    simp [ha]

lemma parseLine_two_colons (tok nm extra : String)
    (htok : ∀ c ∈ tok.data, (c == ':') = false)
    (hnm : ∀ c ∈ nm.data, (c == ':') = false) :
    parseLine (tok ++ ":" ++ nm ++ ":" ++ extra) = (tok, nm) := by
  have hcolon : (":" : String).data = [':'] := rfl
  have hdata : (tok ++ ":" ++ nm ++ ":" ++ extra).data
      = tok.data ++ ':' :: (nm.data ++ ':' :: extra.data) := by
    simp [String.data_append, hcolon]
  unfold parseLine pySplit
  rw [hdata, pySplitP_append _ _ _ _ htok (by decide),
    pySplitP_append _ _ _ _ hnm (by decide)]
  simp [string_mk_data]

lemma hello_ignored_of_recent_mtime
    (env : PingEnv) (store : Store) (token cname : String)
    (tns : List (String × String)) (r : IpRec)
    (hload : load_tokens env.tokenFile = .ok tns)
    (hauth : dictLookup tns token = some cname)
    (hrec : store token = some r)
    (hdeb : ¬ r.mtime < env.now - 10) :
    hello env store token = ⟨.ok200 "OK", store, []⟩ := by
  unfold hello hello_try
  simp only [hload, hauth, hrec, hdeb]
  simp

/-! ## Claim theorems -/

/-- C1: For every ping that reaches the dispatch step (authorized token,
existing non-debounced record, stored IP different from the resolved IP),
the state commit happens only after the dispatch succeeds: when the push
fails, the resulting store is the original store — the token's record reads
the same before and after — the response is a 500 with exactly one dispatch
attempt recorded, and any later ping for the same client that again reaches
the comparison re-attempts the dispatch. -/
theorem hello_dispatch_failure_leaves_state_unchanged
    (env : PingEnv) (store : Store) (token cname : String)
    (tns : List (String × String)) (r : IpRec)
    (hload : load_tokens env.tokenFile = .ok tns)
    (hauth : dictLookup tns token = some cname)
    (hrec : store token = some r)
    (hdeb : r.mtime < env.now - 10)
    (hdiff : r.content ≠ resolved_ip env)
    (hfail : env.pushOk = false) :
    hello env store token = ⟨.err500, store, [⟨cname, resolved_ip env⟩]⟩ ∧
    (hello env store token).store token = store token ∧
    ∀ env2 : PingEnv, load_tokens env2.tokenFile = .ok tns →
      r.mtime < env2.now - 10 → r.content ≠ resolved_ip env2 →
      (hello env2 (hello env store token).store token).dispatches
        = [⟨cname, resolved_ip env2⟩] := by
  have h1 : hello env store token
      = ⟨.err500, store, [⟨cname, resolved_ip env⟩]⟩ := by
    unfold hello hello_try
    simp only [hload, hauth, hrec, hdeb, hfail]
    simp [hdiff]
  refine ⟨h1, by rw [h1], ?_⟩
  intro env2 hload2 hdeb2 hdiff2
  rw [h1]
  unfold hello hello_try
  simp only [hload2, hauth, hrec, hdeb2]
  cases hpush : env2.pushOk <;> simp [hdiff2]

theorem hello_dispatch_failure_leaves_state_unchanged_witness :
    load_tokens (some ["abc123:home"]) = .ok [("abc123", "home")] ∧
    dictLookup [("abc123", "home")] "abc123" = some "home" ∧
    (fun t => if t = "abc123" then some (⟨"1.1.1.1", 0⟩ : IpRec) else none)
        "abc123" = some (⟨"1.1.1.1", 0⟩ : IpRec) ∧
    ((0 : Int) < 100 - 10) ∧
    ("1.1.1.1" : String)
      ≠ resolved_ip ⟨some ["abc123:home"], some "2.2.2.2", "9.9.9.9", "", 0, 100, false⟩ ∧
    hello ⟨some ["abc123:home"], some "2.2.2.2", "9.9.9.9", "", 0, 100, false⟩
        (fun t => if t = "abc123" then some ⟨"1.1.1.1", 0⟩ else none) "abc123"
      = ⟨.err500, (fun t => if t = "abc123" then some ⟨"1.1.1.1", 0⟩ else none),
         [⟨"home", "2.2.2.2"⟩]⟩ :=
  ⟨rfl, rfl, by decide, by decide, by decide,
   (hello_dispatch_failure_leaves_state_unchanged
      ⟨some ["abc123:home"], some "2.2.2.2", "9.9.9.9", "", 0, 100, false⟩
      (fun t => if t = "abc123" then some ⟨"1.1.1.1", 0⟩ else none)
      "abc123" "home" [("abc123", "home")] ⟨"1.1.1.1", 0⟩
      rfl rfl (by decide) (by decide) (by decide) rfl).1⟩

/-- C2 counterexample: in the legacy scrappy-ddns.py variant, `update_ip`
commits the new IP by opening the record file itself for writing — an
in-place edit with no temporary file and no rename — refuting the claim that
every commit in this repository goes through a temporary location followed
by an atomic rename. -/
theorem legacy_update_ip_writes_in_place :
    update_ip_ops_legacy "/var/cache/abc123.ip" "home" "5.6.7.8"
      = [Op.push "home" "5.6.7.8", Op.openW "/var/cache/abc123.ip" "5.6.7.8"] :=
  rfl

/-- C2 (amended): in scrappyddns.py, every commit of a client's IP writes the
new value to a named temporary file in the record's directory and then
renames it into the final record path, after the push; the existing record
file is never opened and edited in place.  The legacy scrappy-ddns.py
variant instead writes the record in place. -/
theorem update_ip_commit_is_temp_then_rename
    (ip_filename tmpName client_name client_ip : String) :
    update_ip_ops ip_filename tmpName client_name client_ip
      = [Op.push client_name client_ip,
         Op.tempWrite (dirname ip_filename) tmpName client_ip,
         Op.rename tmpName ip_filename] ∧
    (∀ path content,
      Op.openW path content ∉ update_ip_ops ip_filename tmpName client_name client_ip) := by
  refine ⟨rfl, ?_⟩
  intro path content
  simp [update_ip_ops]

/-- C3: if the token list file is absent or yields zero valid entries,
`load_tokens` fails with a `ScrappyException` (configuration error) that
aborts the entire ping as a 500 response, with no dispatch and no state
change, for every token — rather than producing an empty registry in which
the lookup would merely return a 404. -/
theorem hello_missing_or_empty_token_list_gives_500
    (env : PingEnv) (store : Store) (token : String)
    (h : env.tokenFile = none ∨
      ∃ lines, env.tokenFile = some lines ∧ lines.filter lineMatches = []) :
    load_tokens env.tokenFile
      = .error "Token list file is missing or contains no tokens." ∧
    hello env store token = ⟨.err500, store, []⟩ := by
  have hload : load_tokens env.tokenFile
      = .error "Token list file is missing or contains no tokens." := by
    rcases h with h | ⟨lines, hl, hf⟩
    · rw [h]; rfl
    · rw [hl]
      unfold load_tokens
      simp [hf]
  refine ⟨hload, ?_⟩
  unfold hello hello_try
  simp only [hload]

theorem hello_missing_or_empty_token_list_gives_500_witness :
    (["# commented:out", "no colon here", ""].filter lineMatches = []) ∧
    load_tokens (some ["# commented:out", "no colon here", ""])
      = .error "Token list file is missing or contains no tokens." ∧
    hello ⟨some ["# commented:out", "no colon here", ""], none, "9.9.9.9", "", 0, 100, true⟩
        (fun _ => none) "abc123"
      = ⟨.err500, (fun _ => none), []⟩ :=
  ⟨by decide,
   (hello_missing_or_empty_token_list_gives_500
      ⟨some ["# commented:out", "no colon here", ""], none, "9.9.9.9", "", 0, 100, true⟩
      (fun _ => none) "abc123"
      (Or.inr ⟨["# commented:out", "no colon here", ""], rfl, by decide⟩)).1,
   (hello_missing_or_empty_token_list_gives_500
      ⟨some ["# commented:out", "no colon here", ""], none, "9.9.9.9", "", 0, 100, true⟩
      (fun _ => none) "abc123"
      (Or.inr ⟨["# commented:out", "no colon here", ""], rfl, by decide⟩)).2⟩

/-- C4: with a positive proxy hop count, `find_client_ip` parses the
forwarded-for header into hops (split on commas/whitespace, empty pieces
discarded), reverses the list so the rightmost hop is first, and returns the
hop at index `proxy_count - 1` whenever enough hops are present; with an
empty hop list, or fewer hops than the proxy count, it falls back to the raw
remote address and emits the misconfiguration warning. -/
theorem find_client_ip_proxy_resolution
    (remote xff : String) (pc : Nat) (hpc : 0 < pc) :
    (forwarded_hops xff = [] → find_client_ip remote xff pc = (remote, true)) ∧
    (pc ≤ (forwarded_hops xff).length →
      find_client_ip remote xff pc
        = ((forwarded_hops xff).getD (pc - 1) "", false)) ∧
    (forwarded_hops xff ≠ [] → (forwarded_hops xff).length < pc →
      find_client_ip remote xff pc = (remote, true)) := by
  refine ⟨?_, ?_, ?_⟩
  · intro h
    unfold find_client_ip
    simp [hpc, h]
  · intro h
    have hne : forwarded_hops xff ≠ [] :=
      List.length_pos.mp (lt_of_lt_of_le hpc h)
    unfold find_client_ip
    simp [hpc, hne, h]
  · intro hne hlt
    have hnle : ¬ pc ≤ (forwarded_hops xff).length := by omega
    unfold find_client_ip
    simp [hpc, hne, hnle]

theorem find_client_ip_proxy_resolution_witness :
    (0 < 2) ∧
    forwarded_hops "10.0.0.1, 10.0.0.2, 10.0.0.3"
      = ["10.0.0.3", "10.0.0.2", "10.0.0.1"] ∧
    find_client_ip "9.9.9.9" "10.0.0.1, 10.0.0.2, 10.0.0.3" 2
      = ("10.0.0.2", false) ∧
    forwarded_hops "" = [] ∧
    find_client_ip "9.9.9.9" "" 2 = ("9.9.9.9", true) :=
  ⟨by decide, by decide,
   by
    have h := (find_client_ip_proxy_resolution "9.9.9.9"
      "10.0.0.1, 10.0.0.2, 10.0.0.3" 2 (by decide)).2.1 (by decide)
    simpa using h,
   rfl,
   (find_client_ip_proxy_resolution "9.9.9.9" "" 2 (by decide)).1 rfl⟩

/-- C5: an authorized token whose record exists and was modified within the
10-second debounce window gets no dispatch and no state change — regardless
of whether the pinged IP differs from the stored one — and the response is
still a 200 with body OK. -/
theorem hello_debounced_ping_no_dispatch
    (env : PingEnv) (store : Store) (token cname : String)
    (tns : List (String × String)) (r : IpRec)
    (hload : load_tokens env.tokenFile = .ok tns)
    (hauth : dictLookup tns token = some cname)
    (hrec : store token = some r)
    (hdeb : ¬ r.mtime < env.now - 10) :
    hello env store token = ⟨.ok200 "OK", store, []⟩ :=
  hello_ignored_of_recent_mtime env store token cname tns r hload hauth hrec hdeb

theorem hello_debounced_ping_no_dispatch_witness :
    load_tokens (some ["abc123:home"]) = .ok [("abc123", "home")] ∧
    dictLookup [("abc123", "home")] "abc123" = some "home" ∧
    (fun t => if t = "abc123" then some (⟨"1.1.1.1", 95⟩ : IpRec) else none)
        "abc123" = some (⟨"1.1.1.1", 95⟩ : IpRec) ∧
    ¬ ((95 : Int) < 100 - 10) ∧
    hello ⟨some ["abc123:home"], some "2.2.2.2", "9.9.9.9", "", 0, 100, true⟩
        (fun t => if t = "abc123" then some ⟨"1.1.1.1", 95⟩ else none) "abc123"
      = ⟨.ok200 "OK",
         (fun t => if t = "abc123" then some ⟨"1.1.1.1", 95⟩ else none), []⟩ :=
  ⟨rfl, rfl, by decide, by decide,
   hello_debounced_ping_no_dispatch
     ⟨some ["abc123:home"], some "2.2.2.2", "9.9.9.9", "", 0, 100, true⟩
     (fun t => if t = "abc123" then some ⟨"1.1.1.1", 95⟩ else none)
     "abc123" "home" [("abc123", "home")] ⟨"1.1.1.1", 95⟩
     rfl rfl (by decide) (by decide)⟩

/-- C6: an authorized token with no existing record triggers exactly one
dispatch attempt for the resolved IP — debounce and IP comparison are
skipped — and, when the push succeeds, exactly one commit creating the
record with that IP at the current time. -/
theorem hello_first_seen_dispatches_and_commits
    (env : PingEnv) (store : Store) (token cname : String)
    (tns : List (String × String))
    (hload : load_tokens env.tokenFile = .ok tns)
    (hauth : dictLookup tns token = some cname)
    (hnew : store token = none) :
    (hello env store token).dispatches = [⟨cname, resolved_ip env⟩] ∧
    (env.pushOk = true →
      hello env store token
        = ⟨.ok200 "OK", commit store token (resolved_ip env) env.now,
           [⟨cname, resolved_ip env⟩]⟩) := by
  constructor
  · unfold hello hello_try
    simp only [hload, hauth, hnew]
    cases hpush : env.pushOk <;> simp
  · intro hpush
    unfold hello hello_try
    simp only [hload, hauth, hnew, hpush]
    simp

theorem hello_first_seen_dispatches_and_commits_witness :
    load_tokens (some ["abc123:home"]) = .ok [("abc123", "home")] ∧
    dictLookup [("abc123", "home")] "abc123" = some "home" ∧
    ((fun _ => none : Store) "abc123" = none) ∧
    (hello ⟨some ["abc123:home"], none, "9.9.9.9", "", 0, 100, true⟩
        (fun _ => none) "abc123").dispatches = [⟨"home", "9.9.9.9"⟩] ∧
    hello ⟨some ["abc123:home"], none, "9.9.9.9", "", 0, 100, true⟩
        (fun _ => none) "abc123"
      = ⟨.ok200 "OK", commit (fun _ => none) "abc123" "9.9.9.9" 100,
         [⟨"home", "9.9.9.9"⟩]⟩ :=
  ⟨rfl, rfl, rfl,
   (hello_first_seen_dispatches_and_commits
      ⟨some ["abc123:home"], none, "9.9.9.9", "", 0, 100, true⟩
      (fun _ => none) "abc123" "home" [("abc123", "home")] rfl rfl rfl).1,
   (hello_first_seen_dispatches_and_commits
      ⟨some ["abc123:home"], none, "9.9.9.9", "", 0, 100, true⟩
      (fun _ => none) "abc123" "home" [("abc123", "home")] rfl rfl rfl).2 rfl⟩

/-- C7: the claim says an unknown token yields a 404.  The code does call
`abort(404)`, but that raises `NotFound`, a subclass of `Exception`, inside
the `try` block, so the blanket `except Exception` handler catches it and
calls `abort(500)`: the client actually receives a 500.  The first conjunct
evaluates the full handler at a concrete unknown token; the second shows the
`try` body did take the `abort(404)` path, confirming the intent the handler
then swallows. -/
theorem hello_unknown_token_returns_500 :
    hello ⟨some ["abc123:home"], none, "9.9.9.9", "", 0, 100, true⟩
        (fun _ => none) "xyz999"
      = ⟨.err500, (fun _ => none), []⟩ ∧
    hello_try ⟨some ["abc123:home"], none, "9.9.9.9", "", 0, 100, true⟩
        (fun _ => none) "xyz999"
      = ⟨.aborted404, (fun _ => none), []⟩ :=
  ⟨rfl, rfl⟩

/-- C8: whenever the request supplies an explicit `ip_address` parameter,
the resolved client IP is exactly that parameter, overriding the remote
address and any proxy-hop resolution. -/
theorem resolved_ip_param_overrides (env : PingEnv) (ip : String)
    (h : env.ipParam = some ip) : resolved_ip env = ip := by
  unfold resolved_ip
  rw [h]
  rfl

theorem resolved_ip_param_overrides_witness :
    (PingEnv.ipParam
        ⟨some ["abc123:home"], some "7.7.7.7", "9.9.9.9",
         "1.1.1.1, 2.2.2.2", 1, 100, true⟩ = some "7.7.7.7") ∧
    resolved_ip
        ⟨some ["abc123:home"], some "7.7.7.7", "9.9.9.9",
         "1.1.1.1, 2.2.2.2", 1, 100, true⟩ = "7.7.7.7" :=
  ⟨rfl,
   resolved_ip_param_overrides
     ⟨some ["abc123:home"], some "7.7.7.7", "9.9.9.9",
      "1.1.1.1, 2.2.2.2", 1, 100, true⟩ "7.7.7.7" rfl⟩

/-- C9: the debounce boundary is inclusive.  A ping arriving when the
record's modification time is exactly 10 seconds before the current time is
still debounced: the code takes action only when the modification time is
strictly less than now minus 10, so at exact equality no dispatch happens,
the store is unchanged, and the response is 200 OK. -/
theorem hello_debounce_boundary_inclusive
    (env : PingEnv) (store : Store) (token cname : String)
    (tns : List (String × String)) (r : IpRec)
    (hload : load_tokens env.tokenFile = .ok tns)
    (hauth : dictLookup tns token = some cname)
    (hrec : store token = some r)
    (hb : r.mtime = env.now - 10) :
    hello env store token = ⟨.ok200 "OK", store, []⟩ :=
  hello_ignored_of_recent_mtime env store token cname tns r hload hauth hrec
    (by rw [hb]; exact lt_irrefl _)

theorem hello_debounce_boundary_inclusive_witness :
    load_tokens (some ["abc123:home"]) = .ok [("abc123", "home")] ∧
    dictLookup [("abc123", "home")] "abc123" = some "home" ∧
    (fun t => if t = "abc123" then some (⟨"1.1.1.1", 90⟩ : IpRec) else none)
        "abc123" = some (⟨"1.1.1.1", 90⟩ : IpRec) ∧
    ((90 : Int) = 100 - 10) ∧
    hello ⟨some ["abc123:home"], some "2.2.2.2", "9.9.9.9", "", 0, 100, true⟩
        (fun t => if t = "abc123" then some ⟨"1.1.1.1", 90⟩ else none) "abc123"
      = ⟨.ok200 "OK",
         (fun t => if t = "abc123" then some ⟨"1.1.1.1", 90⟩ else none), []⟩ :=
  ⟨rfl, rfl, by decide, by decide,
   hello_debounce_boundary_inclusive
     ⟨some ["abc123:home"], some "2.2.2.2", "9.9.9.9", "", 0, 100, true⟩
     (fun t => if t = "abc123" then some ⟨"1.1.1.1", 90⟩ else none)
     "abc123" "home" [("abc123", "home")] ⟨"1.1.1.1", 90⟩
     rfl rfl (by decide) (by decide)⟩

/-- C10: for a token-list line with two or more colons whose token and name
segments are colon-free, whose first character is not a comment marker, and
which carries no surrounding whitespace, `load_tokens` keeps only the
segment before the first colon as the token and the segment between the
first and second colon as the client name; everything after the second colon
is silently discarded. -/
theorem load_tokens_extra_colon_segments_discarded
    (tok nm extra : String)
    (htok : ∀ c ∈ tok.data, (c == ':') = false)
    (hnm : ∀ c ∈ nm.data, (c == ':') = false)
    (hmatch : lineMatches (tok ++ ":" ++ nm ++ ":" ++ extra) = true)
    (hstrip : pyStrip (tok ++ ":" ++ nm ++ ":" ++ extra)
        = tok ++ ":" ++ nm ++ ":" ++ extra) :
    load_tokens (some [tok ++ ":" ++ nm ++ ":" ++ extra]) = .ok [(tok, nm)] := by
  unfold load_tokens
  simp [hmatch, hstrip, parseLine_two_colons tok nm extra htok hnm]

theorem load_tokens_extra_colon_segments_discarded_witness :
    (∀ c ∈ ("tok" : String).data, (c == ':') = false) ∧
    (∀ c ∈ ("name" : String).data, (c == ':') = false) ∧
    lineMatches "tok:name:extra:more" = true ∧
    pyStrip "tok:name:extra:more" = "tok:name:extra:more" ∧
    load_tokens (some ["tok:name:extra:more"]) = .ok [("tok", "name")] :=
  ⟨by decide, by decide, by decide, by decide,
   by
    have h := load_tokens_extra_colon_segments_discarded "tok" "name"
      "extra:more" (by decide) (by decide) (by decide) (by decide)
    simpa using h⟩

end ScrappyDDNS
